import Mathlib

/-!
Shallow embedding of `src/debug-supabase-storage.mjs`, an interactive
diagnostic CLI for a remote object-storage service.  Pure computations
(error-hint classification, URL-probe result shaping, JS truthiness,
default handling) are translated into Lean functions; effectful handlers
are translated into functions that take the outcomes of the external
calls (network events, API results, filesystem state) as explicit
parameters and return the trace of observable effects they perform.
-/

set_option autoImplicit false

namespace SupabaseDebug

/-- JS truthiness of a string: `""` is falsy, any other string is truthy. -/
def truthyStr (s : String) : Bool := !s.isEmpty

/-- JS truthiness of a possibly-absent string value (`undefined`/`null` and
`""` are falsy). -/
def truthy : Option String → Bool
  | none => false
  | some s => !s.isEmpty

/-- JS `a || d` for a possibly-absent string `a` with default `d`. -/
def jsOr (a : Option String) (d : String) : String :=
  match a with
  | none => d
  | some s => if s.isEmpty then d else s

/-- JS `a || d` for a present string `a` with default `d`. -/
def jsOrStr (a d : String) : String := if a.isEmpty then d else a

/-- JS `String.prototype.includes`: substring containment, embedded as
infix containment on the character list. -/
def strIncludes (s pat : String) : Bool :=
  decide (List.IsInfix pat.toList s.toList)

/-- JS `String.prototype.toLowerCase`, embedded as per-character ASCII
lowercasing of the character list. -/
def jsToLower (s : String) : String := ⟨s.toList.map Char.toLower⟩

/-- `path.basename`: the last `/`-separated component of a path. -/
def basename (p : String) : String := ⟨(p.toList.splitOn '/').getLastD []⟩

/-- Source line 18: the fixed temp directory (relative name; the
`__dirname` prefix is elided). -/
def TEMP_DIR_PATH : String := "supabase-debug-temp"

/-- Source line 19. -/
def TEST_TEXT_FILENAME : String := "debug-text.txt"

/-- Source line 20. -/
def TEST_IMAGE_FILENAME : String := "debug-image.png"

/-- Source line 21. -/
def DEFAULT_UPLOAD_PATH_PREFIX : String := "supabase-debug-tool"

/-- `getErrorHint` (source lines 84-109).  The argument is the error
object's `message` field (`none` models `undefined`/`null`).
`error.message?.toLowerCase() || ""` collapses an absent message to `""`;
then a fixed ordered list of keyword groups is tried and the first match
wins; the fallback echoes `error.message || "Unknown Supabase error"`. -/
def getErrorHint (message : Option String) : String :=
  let msg := match message with
    | none => ""
    | some s => jsToLower s
  if strIncludes msg "unauthorized" || strIncludes msg "access denied" ||
      strIncludes msg "jwt" || strIncludes msg "token" then
    "Auth issue. Verify API key, RLS policies, or use Service Role Key. Key might be expired or invalid."
  else if strIncludes msg "not found" || strIncludes msg "does not exist" then
    "Resource (bucket, file) not found. Check names and paths."
  else if strIncludes msg "timeout" then
    "Network timeout. Check connectivity, Supabase status, or firewall."
  else if strIncludes msg "limit" then
    "Rate limit or resource limit exceeded. Check Supabase plan."
  else if strIncludes msg "already exists" then
    "File already exists. Use upsert true or choose a different path if not intended."
  else
    "Consult Supabase docs for: \x22" ++ jsOr message "Unknown Supabase error" ++ "\x22"

/-- The auth-issue hint string returned by the first keyword group of
`getErrorHint` (source line 92). -/
def authHint : String :=
  "Auth issue. Verify API key, RLS policies, or use Service Role Key. Key might be expired or invalid."

/-- The outcome of the single HTTP GET issued by `checkUrl`: the response
callback fires with a status code, or the request errors, or the
5-second timeout elapses. -/
inductive NetEvent where
  | response (statusCode : Nat)
  | netError
  | timeout
deriving DecidableEq, Repr

/-- The value `checkUrl` resolves to. -/
structure UrlCheckResult where
  accessible : Bool
  statusCode : Nat
  error : Option String
deriving DecidableEq, Repr

/-- `checkUrl` (source lines 111-129): resolves with
`accessible = (200 <= status < 400)` on a response, and with
`accessible = false, statusCode = 0` and a fixed error string on the
request error or timeout paths.  Totality over `NetEvent` embeds the
never-throws contract. -/
def checkUrl : NetEvent → UrlCheckResult
  | .response s =>
      { accessible := decide (200 ≤ s ∧ s < 400), statusCode := s, error := none }
  | .netError => { accessible := false, statusCode := 0, error := some "Network error" }
  | .timeout => { accessible := false, statusCode := 0, error := some "Timeout" }

/-- The first two arguments handed to the client library's
`upload(path, fileBody, options)` call.  The source passes either a file
read stream (`fs.createReadStream(fileSource.path)`) or an in-memory
buffer, and the target path string. -/
inductive UploadArg where
  | streamOf (localPath : String)
  | bufferOf
  | pathStr (p : String)
deriving DecidableEq, Repr

/-- The `fileSource` argument of `coreUploadProcessor`: an object carrying
either a local file `path` or a `buffer`. -/
inductive FileSource where
  | path (p : String)
  | buffer
deriving DecidableEq, Repr

/-- One observable step performed by a handler: console output, a
filesystem action, or a call to the external client/network.  Log lines
whose full text involves float formatting (`formatBytes`) are embedded
structurally (`downloadOk`, `okStatus`, ...) rather than as strings. -/
inductive Effect where
  | info (s : String)
  | warn (s : String)
  | errorLog (s : String)
  | tip (s : String)
  | logOk (s : String)
  | mkdirTemp
  | writeFile (p : String)
  | unlinkAttempt (p : String)
  | uploadCall (bucket : String) (pathArg bodyArg : UploadArg)
      (contentType cacheControl : String) (upsert : Bool)
  | uploadedPath (p : UploadArg)
  | computePublicUrl (bucket path : String)
  | printUrl (u : String)
  | probeUrl (u : String)
  | printItem (itemName : String) (isDirectory : Bool)
      (sizeShown : Option Nat) (mimeShown : Option String)
  | downloadOk (size : Nat) (blobType : String)
  | okStatus (code : Nat)
  | warnStatus (code : Nat) (err : Option String)
deriving DecidableEq, Repr

/-- `true` iff the trace contains a reachability probe (`checkUrl` call). -/
def hasProbeEffect (es : List Effect) : Bool :=
  es.any fun e => match e with
    | .probeUrl _ => true
    | _ => false

/-- `true` iff the trace contains a local file write. -/
def hasWriteEffect (es : List Effect) : Bool :=
  es.any fun e => match e with
    | .writeFile _ => true
    | _ => false

/-- `true` iff the trace computes a public URL (`getPublicUrl` call). -/
def hasComputeUrlEffect (es : List Effect) : Bool :=
  es.any fun e => match e with
    | .computePublicUrl _ _ => true
    | _ => false

/-- The three environment variables read at startup (source lines 14-16,
133-135); `none` models an unset variable. -/
structure Env where
  supabaseUrl : Option String
  serviceKey : Option String
  anonKey : Option String
deriving DecidableEq, Repr

/-- The global `supabase` client handle once constructed. -/
structure Client where
  url : String
  key : String
deriving DecidableEq, Repr

/-- What `validateEnvAndInitClient` leaves behind: its boolean return
value and the state of the global `supabase` handle. -/
structure InitOutcome where
  ok : Bool
  client : Option Client
deriving DecidableEq, Repr

/-- `validateEnvAndInitClient` (source lines 131-191).  `parseOk u`
models whether `new URL(u)` succeeds; `createOk` models whether
`createClient` returns without throwing.  The key preference is JS
`serviceKey || anonKey`; `valid` is cleared when the URL is unset/empty,
when URL parsing throws, or when no key is truthy, and the function
returns `false` before any client construction when `valid` is false.
The post-construction ping (`checkUrl`) only logs and cannot throw, so
it does not affect the outcome. -/
def validateEnvAndInitClient (parseOk : String → Bool) (createOk : Bool)
    (env : Env) : InitOutcome :=
  let supabaseUrl := env.supabaseUrl
  let serviceKey := env.serviceKey
  let anonKey := env.anonKey
  let supabaseKey := if truthy serviceKey then serviceKey else anonKey
  let urlOk :=
    match supabaseUrl with
    | none => false
    | some u => if u.isEmpty then false else parseOk u
  let valid := urlOk && truthy supabaseKey
  if !valid then
    { ok := false, client := none }
  else if createOk then
    { ok := true,
      client := some { url := (supabaseUrl.getD ""), key := (supabaseKey.getD "") } }
  else
    { ok := false, client := none }

/-- How step 3 of the connectivity test reports the probe of the storage
public endpoint. -/
inductive CorsReport where
  | reportOk (statusCode : Nat)
  | reportWarn (statusCode : Nat) (error : Option String)
  | skipped
deriving DecidableEq, Repr

/-- Step 3 of `checkConnectivity` (source lines 400-423): when the
Supabase URL env value is truthy, probe
`<url>/storage/v1/object/public/` and report success when the probe is
accessible or returned exactly status 400; otherwise warn.  When the URL
is not set the check is skipped with a warning. -/
def checkConnectivityCors (supabaseUrl : Option String) (ev : NetEvent) :
    CorsReport :=
  if truthy supabaseUrl then
    let corsCheck := checkUrl ev
    if corsCheck.accessible || corsCheck.statusCode == 400 then
      CorsReport.reportOk corsCheck.statusCode
    else
      CorsReport.reportWarn corsCheck.statusCode corsCheck.error
  else
    CorsReport.skipped

/-- The `metadata` object of a storage listing entry. -/
structure ItemMeta where
  size : Option Nat
  mimetype : Option String
deriving DecidableEq, Repr

/-- One entry returned by the list-files API call (source line 498):
`id` is absent for directory placeholders. -/
structure ListItem where
  id : Option String
  itemName : String
  metadata : Option ItemMeta
deriving DecidableEq, Repr

/-- The per-item body of the `data.forEach` loop in `showBucketFiles`
(source lines 498-516).  `getPub b p` models
`storage.from(b).getPublicUrl(p).data?.publicUrl`.  `isDir` is JS
`!item.id`; the displayed size is `item.metadata?.size || 0` and the
displayed MIME type is `item.metadata?.mimetype || "N/A"`; for files the
public URL is computed from `(prefix ? prefix + "/" : "") + item.name`
and printed when truthy.  No probe is ever issued here. -/
def processListItem (getPub : String → String → Option String)
    (bucketName pre : String) (item : ListItem) : List Effect :=
  let isDir := !truthy item.id
  let shown :=
    if isDir then
      Effect.printItem item.itemName true none none
    else
      Effect.printItem item.itemName false
        (some (match item.metadata with
               | none => 0
               | some md => md.size.getD 0))
        (some (match item.metadata with
               | none => "N/A"
               | some md => jsOr md.mimetype "N/A"))
  let urlPart :=
    if isDir then
      []
    else
      let p := (if pre.isEmpty then "" else pre ++ "/") ++ item.itemName
      Effect.computePublicUrl bucketName p ::
        (match getPub bucketName p with
         | some u => if truthyStr u then [Effect.printUrl u] else []
         | none => [])
  shown :: urlPart

/-- The base64 payload of the generated 1x1 test PNG (source line 274). -/
def TEST_IMAGE_BASE64 : String :=
  "iVBORw0KGgoAAAANSUhEUgAAAAEAAAABCAQAAAC1HAwCAAAAC0lEQVR42mNkYAAAAAYAAjCB0C8AAAAASUVORK5CYII="

/-- Byte length of a base64 decode (`Buffer.from(s, "base64").length`). -/
def base64DecodedLength (s : String) : Nat :=
  s.length / 4 * 3 -
    (if (s.toList.reverse.take 2) = ['=', '='] then 2
     else if (s.toList.reverse.take 1) = ['='] then 1
     else 0)

/-- The value `prepareTestFile` resolves with. -/
structure TestFile where
  filePath : String
  contentType : String
  fileSize : Nat
deriving DecidableEq, Repr

/-- `prepareTestFile` (source lines 258-280): creates the temp directory
when it does not exist, then for type "text" writes a timestamped text
payload (`now` is the ISO timestamp) and for type "image" writes the
fixed base64-decoded PNG; any other type yields `null`.  Returns the
filesystem effect trace together with the JS return value. -/
def prepareTestFile (tempDirExists : Bool) (now : String) (ftype : String) :
    List Effect × Option TestFile :=
  let mk : List Effect := if tempDirExists then [] else [Effect.mkdirTemp]
  if ftype = "text" then
    let filePath := TEMP_DIR_PATH ++ "/" ++ TEST_TEXT_FILENAME
    let content := "Supabase Storage Debug Tool: Test file generated at " ++ now
    (mk ++ [Effect.writeFile filePath],
      some { filePath := filePath, contentType := "text/plain",
             fileSize := content.utf8ByteSize })
  else if ftype = "image" then
    let filePath := TEMP_DIR_PATH ++ "/" ++ TEST_IMAGE_FILENAME
    (mk ++ [Effect.writeFile filePath],
      some { filePath := filePath, contentType := "image/png",
             fileSize := base64DecodedLength TEST_IMAGE_BASE64 })
  else (mk, none)

/-- The outcome of the awaited client-library upload call. -/
inductive UploadOutcome where
  | ok
  | apiError (msg : String)
  | thrown (msg : String)
deriving DecidableEq, Repr

/-- `coreUploadProcessor` (source lines 193-256).  The client library
contract for `upload(path, fileBody, options)` stores the object under
the FIRST argument and echoes it back as `data.path`; the source passes
`fileSource.path ? fs.createReadStream(...) : fileSource.buffer` as the
first argument and `targetPath` as the second, so the file source is
what occupies the remote-object-path slot.  `outcome` models the awaited
API result, `getPub` the `getPublicUrl` data, `probeEv` the probe's
network event.  Returns the effect trace and the JS return value
(`data.path` on success, `null` on failure or exception). -/
def coreUploadProcessor (outcome : UploadOutcome)
    (getPub : String → String → Option String) (probeEv : NetEvent)
    (bucketName targetPath : String) (fileSource : FileSource)
    (contentType : String) (fileSize : Nat) : List Effect × Option UploadArg :=
  let firstArg : UploadArg := match fileSource with
    | .path p => .streamOf p
    | .buffer => .bufferOf
  let secondArg : UploadArg := .pathStr targetPath
  let pre :=
    [Effect.info ("Attempting upload: " ++ bucketName ++ "/" ++ targetPath),
     Effect.uploadCall bucketName firstArg secondArg contentType "3600" true]
  match outcome with
  | .apiError msg =>
      (pre ++ [Effect.errorLog ("Upload FAILED: " ++ msg),
               Effect.tip (getErrorHint (some msg))], none)
  | .thrown msg =>
      (pre ++ [Effect.errorLog ("Critical upload exception: " ++ msg),
               Effect.tip (getErrorHint (some msg))], none)
  | .ok =>
      let dataPath := firstArg
      let post :=
        Effect.uploadedPath dataPath ::
        Effect.computePublicUrl bucketName targetPath ::
        (match getPub bucketName targetPath with
         | some u =>
             if truthyStr u then
               Effect.info ("Public URL: " ++ u) ::
               Effect.probeUrl u ::
               (let r := checkUrl probeEv
                if r.accessible then [Effect.okStatus r.statusCode]
                else [Effect.warnStatus r.statusCode r.error])
             else
               [Effect.warn "Could not retrieve public URL. Bucket might be private or an issue occurred."]
         | none =>
             [Effect.warn "Could not retrieve public URL. Bucket might be private or an issue occurred."])
      (pre ++ post, some dataPath)

/-- `handleGeneratedFileUpload` (source lines 282-324): requires a
truthy bucket name, prepares the generated test file, uploads it through
`coreUploadProcessor` (which never throws past its boundary), then
always attempts `fs.unlinkSync` on the local test file, logging info on
success and only a warning (`unlinkErr` is the thrown message) on
failure. -/
def handleGeneratedFileUpload (tempDirExists : Bool) (now : String)
    (outcome : UploadOutcome) (getPub : String → String → Option String)
    (probeEv : NetEvent) (unlinkErr : Option String)
    (fileType bucketName storagePathInput : String) : List Effect :=
  if !truthyStr bucketName then [Effect.errorLog "Bucket name required."]
  else
    let prep := prepareTestFile tempDirExists now fileType
    match prep.2 with
    | none =>
        prep.1 ++ [Effect.errorLog ("Failed to prepare test " ++ fileType ++ " file.")]
    | some testFile =>
        let defaultFileName := basename testFile.filePath
        let storagePath := jsOrStr storagePathInput
          (DEFAULT_UPLOAD_PATH_PREFIX ++ "/" ++ fileType ++ "/" ++ defaultFileName)
        let up := coreUploadProcessor outcome getPub probeEv bucketName storagePath
          (FileSource.path testFile.filePath) testFile.contentType testFile.fileSize
        prep.1 ++ up.1 ++
          (Effect.unlinkAttempt testFile.filePath ::
            (match unlinkErr with
             | none => [Effect.info ("Cleaned up local test file: " ++ testFile.filePath)]
             | some m => [Effect.warn ("Failed to cleanup local test file: " ++ m)]))

/-- The outcome of the awaited client-library download call. -/
inductive DownloadResult where
  | ok (size : Nat) (blobType : String)
  | apiError (msg : String)
  | thrown (msg : String)
deriving DecidableEq, Repr

/-- The Node error message raised by `fs.writeFileSync` when the parent
directory of the target path does not exist. -/
def enoentMsg (p : String) : String :=
  "ENOENT: no such file or directory, open " ++ p

/-- `checkDownload` (source lines 522-585): step 1 wraps the download in
try/catch; on success the blob is written under the temp directory -
`writeFileSync` throws into the catch when that directory does not exist
(`tempDirExists = false`), since this handler never creates it.  Step 2
(fetching and probing the public URL) follows unconditionally after the
try/catch. -/
def checkDownload (dl : DownloadResult) (tempDirExists : Bool)
    (getPub : String → String → Option String) (probeEv : NetEvent)
    (bucketName filePath : String) : List Effect :=
  if !truthyStr bucketName then [Effect.errorLog "Bucket name required."]
  else if !truthyStr filePath then [Effect.errorLog "File path required."]
  else
    let step1 :=
      Effect.info ("1. Attempting download via Supabase client: " ++
          bucketName ++ "/" ++ filePath) ::
      (match dl with
       | .apiError msg =>
           [Effect.errorLog ("Download FAILED: " ++ msg),
            Effect.tip (getErrorHint (some msg))]
       | .ok size blobType =>
           let dlPath := TEMP_DIR_PATH ++ "/download_" ++ basename filePath
           Effect.downloadOk size blobType ::
           (if tempDirExists then
              [Effect.writeFile dlPath,
               Effect.info ("File saved locally to: " ++ dlPath)]
            else
              [Effect.errorLog ("Critical download exception: " ++ enoentMsg dlPath)])
       | .thrown msg => [Effect.errorLog ("Critical download exception: " ++ msg)])
    let step2 :=
      Effect.info "2. Checking public URL accessibility (if any):" ::
      Effect.computePublicUrl bucketName filePath ::
      (match getPub bucketName filePath with
       | some u =>
           if truthyStr u then
             Effect.info ("Public URL: " ++ u) ::
             Effect.probeUrl u ::
             (let r := checkUrl probeEv
              if r.accessible then [Effect.okStatus r.statusCode]
              else [Effect.warnStatus r.statusCode r.error])
           else [Effect.warn "Could not retrieve public URL for this file."]
       | none => [Effect.warn "Could not retrieve public URL for this file."])
    step1 ++ step2

end SupabaseDebug

namespace SupabaseDebug

/-- C2: The reachability probe is total over its three event classes -
it always resolves to a well-formed `UrlCheckResult` - and on network
error it resolves to accessible=false, statusCode=0, error="Network
error"; on exceeding the 5-second timeout it resolves to
accessible=false, statusCode=0, error="Timeout"; on a response it
resolves to the status code with accessibility exactly when the status
lies in [200, 400). -/
theorem checkUrl_never_raises :
    checkUrl NetEvent.netError =
      { accessible := false, statusCode := 0, error := some "Network error" } ∧
    checkUrl NetEvent.timeout =
      { accessible := false, statusCode := 0, error := some "Timeout" } ∧
    ∀ s : Nat, checkUrl (NetEvent.response s) =
      { accessible := decide (200 ≤ s ∧ s < 400), statusCode := s, error := none } := by
  refine ⟨rfl, rfl, fun s => rfl⟩

/-- C3: any error message containing "unauthorized" (in any casing, so
its lowercasing contains the lowercase keyword) is classified with the
auth-issue hint, regardless of which other keyword substrings occur in
it, because the auth group is tested first. -/
theorem getErrorHint_unauthorized_first (m : String)
    (h : strIncludes (jsToLower m) "unauthorized" = true) :
    getErrorHint (some m) = authHint := by
  unfold getErrorHint authHint
  simp [h]

/-- Witness for C3 on a message mixing the auth keyword with the
not-found, timeout, limit and already-exists keywords. -/
theorem getErrorHint_unauthorized_first_witness :
    strIncludes (jsToLower "UnAuthorized: not found, timeout, limit, already exists")
        "unauthorized" = true ∧
    getErrorHint (some "UnAuthorized: not found, timeout, limit, already exists") = authHint :=
  ⟨by decide, getErrorHint_unauthorized_first _ (by decide)⟩

/-- C4: when the storage endpoint URL is set (a nonempty string) but
syntactically malformed (`new URL` throws), startup validation returns
the abort indicator `false` and the global client handle is never
constructed, whatever the keys and however `createClient` would have
behaved. -/
theorem validateEnv_malformed_url_aborts (parseOk : String → Bool)
    (createOk : Bool) (env : Env) (u : String)
    (hset : env.supabaseUrl = some u) (hne : u.isEmpty = false)
    (hbad : parseOk u = false) :
    validateEnvAndInitClient parseOk createOk env =
      { ok := false, client := none } := by
  simp [validateEnvAndInitClient, hset, hne, hbad]

/-- Witness for C4 at a concrete malformed-URL environment. -/
theorem validateEnv_malformed_url_aborts_witness :
    ({ supabaseUrl := some "not a url", serviceKey := some "k",
        anonKey := none } : Env).supabaseUrl = some "not a url" ∧
    ("not a url" : String).isEmpty = false ∧
    (fun (_ : String) => false) "not a url" = false ∧
    validateEnvAndInitClient (fun _ => false) true
        { supabaseUrl := some "not a url", serviceKey := some "k", anonKey := none } =
      { ok := false, client := none } :=
  ⟨rfl, rfl, rfl,
    validateEnv_malformed_url_aborts (fun _ => false) true
      { supabaseUrl := some "not a url", serviceKey := some "k", anonKey := none }
      "not a url" rfl rfl rfl⟩

/-- C7: in the connectivity test, the storage public endpoint check is
reported as success exactly when the probe is accessible (response
status in [200,400)) or the status is exactly 400; network error and
timeout (status 0) and a 404 response are reported as warnings. -/
theorem checkConnectivity_cors_success_iff (url : String)
    (hu : truthy (some url) = true) (s : Nat) :
    (checkConnectivityCors (some url) (NetEvent.response s) =
        CorsReport.reportOk s ↔ ((200 ≤ s ∧ s < 400) ∨ s = 400)) ∧
    checkConnectivityCors (some url) NetEvent.netError =
      CorsReport.reportWarn 0 (some "Network error") ∧
    checkConnectivityCors (some url) NetEvent.timeout =
      CorsReport.reportWarn 0 (some "Timeout") ∧
    checkConnectivityCors (some url) (NetEvent.response 404) =
      CorsReport.reportWarn 404 none := by
  refine ⟨?_, ?_, ?_, ?_⟩
  · have hred : checkConnectivityCors (some url) (NetEvent.response s) =
        (if decide (200 ≤ s ∧ s < 400) || (s == 400) then CorsReport.reportOk s
         else CorsReport.reportWarn s none) := by
      unfold checkConnectivityCors
      rw [hu]
      rfl
    constructor
    · intro h
      by_contra hc
      have h1 : ¬(200 ≤ s ∧ s < 400) := fun hh => hc (Or.inl hh)
      have h2 : s ≠ 400 := fun hh => hc (Or.inr hh)
      have hcond : (decide (200 ≤ s ∧ s < 400) || (s == 400)) = false := by
        simp [h1, h2]
      rw [hred, hcond] at h
      exact CorsReport.noConfusion h
    · intro hc
      have hcond : (decide (200 ≤ s ∧ s < 400) || (s == 400)) = true := by
        rcases hc with h | h
        · simp [h]
        · simp [h]
      rw [hred, hcond]
      rfl
  · simp [checkConnectivityCors, checkUrl, hu]
  · simp [checkConnectivityCors, checkUrl, hu]
  · simp [checkConnectivityCors, checkUrl, hu]

/-- Witness for C7 at a concrete URL and status 250. -/
theorem checkConnectivity_cors_success_iff_witness :
    truthy (some "http://example.com") = true ∧
    ((checkConnectivityCors (some "http://example.com") (NetEvent.response 250) =
        CorsReport.reportOk 250 ↔ ((200 ≤ 250 ∧ 250 < 400) ∨ 250 = 400)) ∧
      checkConnectivityCors (some "http://example.com") NetEvent.netError =
        CorsReport.reportWarn 0 (some "Network error") ∧
      checkConnectivityCors (some "http://example.com") NetEvent.timeout =
        CorsReport.reportWarn 0 (some "Timeout") ∧
      checkConnectivityCors (some "http://example.com") (NetEvent.response 404) =
        CorsReport.reportWarn 404 none) :=
  ⟨rfl, checkConnectivity_cors_success_iff "http://example.com" rfl 250⟩

/-- C5: in the list-files handler, an entry whose `id` is not truthy is
shown as a directory and no public URL is computed or printed for it; an
entry with a truthy `id` is shown as a file, its public URL is computed
(and printed when the library returns a truthy URL string), and its
displayed size and MIME type default to 0 and "N/A" when the metadata or
its fields are absent; no entry is ever probed. -/
theorem showBucketFiles_item_classification
    (getPub : String → String → Option String) (bucketName pre : String)
    (item : ListItem) :
    (truthy item.id = false →
      processListItem getPub bucketName pre item =
        [Effect.printItem item.itemName true none none]) ∧
    (truthy item.id = true →
      (Effect.computePublicUrl bucketName
          ((if pre.isEmpty then "" else pre ++ "/") ++ item.itemName) ∈
        processListItem getPub bucketName pre item) ∧
      ∀ u, getPub bucketName
            ((if pre.isEmpty then "" else pre ++ "/") ++ item.itemName) = some u →
        truthyStr u = true →
        Effect.printUrl u ∈ processListItem getPub bucketName pre item) ∧
    (truthy item.id = true →
      (item.metadata = none ∨ item.metadata = some { size := none, mimetype := none }) →
      Effect.printItem item.itemName false (some 0) (some "N/A") ∈
        processListItem getPub bucketName pre item) ∧
    hasProbeEffect (processListItem getPub bucketName pre item) = false := by
  refine ⟨?_, ?_, ?_, ?_⟩
  · intro h
    simp [processListItem, h]
  · intro h
    refine ⟨?_, ?_⟩
    · simp [processListItem, h]
    · intro u hu htu
      simp [processListItem, h, hu, htu]
  · intro h hm
    rcases hm with hm | hm <;> simp [processListItem, h, hm, jsOr]
  · unfold processListItem hasProbeEffect
    cases h : truthy item.id <;> simp [h]
    rcases hgp : getPub bucketName
        ((if pre.isEmpty then "" else pre ++ "/") ++ item.itemName) with _ | u
    · simp
    · by_cases htu : truthyStr u = true <;> simp [htu]

/-- Witness for C5 at a concrete directory entry and a concrete file
entry with absent metadata. -/
theorem showBucketFiles_item_classification_witness :
    processListItem (fun _ _ => some "http://u") "b" ""
        { id := none, itemName := "dir", metadata := none } =
      [Effect.printItem "dir" true none none] ∧
    Effect.printItem "f.txt" false (some 0) (some "N/A") ∈
      processListItem (fun _ _ => some "http://u") "b" ""
        { id := some "idv", itemName := "f.txt", metadata := none } ∧
    Effect.printUrl "http://u" ∈
      processListItem (fun _ _ => some "http://u") "b" ""
        { id := some "idv", itemName := "f.txt", metadata := none } :=
  ⟨(showBucketFiles_item_classification (fun _ _ => some "http://u") "b" ""
      { id := none, itemName := "dir", metadata := none }).1 (by decide),
    (showBucketFiles_item_classification (fun _ _ => some "http://u") "b" ""
      { id := some "idv", itemName := "f.txt", metadata := none }).2.2.1
      (by decide) (Or.inl rfl),
    ((showBucketFiles_item_classification (fun _ _ => some "http://u") "b" ""
      { id := some "idv", itemName := "f.txt", metadata := none }).2.1
      (by decide)).2 "http://u" rfl (by decide)⟩

/-- C1 is violated by the code: on a successful upload the remote object
path slot of the `upload(path, fileBody, options)` call is occupied by
the file stream, not the target path `P`, because the source swaps the
two arguments; hence the stored path printed and returned is the
file-source argument and is NOT `P`.  Evaluated at the concrete generated
text-file upload. -/
theorem coreUpload_returns_swapped_path :
    (coreUploadProcessor UploadOutcome.ok (fun _ _ => some "http://u")
        (NetEvent.response 200) "test-bucket" "supabase-debug-tool/text/debug-text.txt"
        (FileSource.path "supabase-debug-temp/debug-text.txt") "text/plain" 73).2 =
      some (UploadArg.streamOf "supabase-debug-temp/debug-text.txt") ∧
    (coreUploadProcessor UploadOutcome.ok (fun _ _ => some "http://u")
        (NetEvent.response 200) "test-bucket" "supabase-debug-tool/text/debug-text.txt"
        (FileSource.path "supabase-debug-temp/debug-text.txt") "text/plain" 73).2 ≠
      some (UploadArg.pathStr "supabase-debug-tool/text/debug-text.txt") ∧
    Effect.uploadCall "test-bucket"
        (UploadArg.streamOf "supabase-debug-temp/debug-text.txt")
        (UploadArg.pathStr "supabase-debug-tool/text/debug-text.txt")
        "text/plain" "3600" true ∈
      (coreUploadProcessor UploadOutcome.ok (fun _ _ => some "http://u")
        (NetEvent.response 200) "test-bucket" "supabase-debug-tool/text/debug-text.txt"
        (FileSource.path "supabase-debug-temp/debug-text.txt") "text/plain" 73).1 := by
  refine ⟨rfl, by decide, by decide⟩

/-- C6: in the download handler the step-2 public-URL fetch and probe
run whether the download succeeded, returned an API error, or threw
(including the write failure inside the try block), for any truthy
bucket name and object path. -/
theorem checkDownload_probe_runs_regardless (dl : DownloadResult)
    (tempDirExists : Bool) (getPub : String → String → Option String)
    (probeEv : NetEvent) (bucketName filePath : String)
    (hB : truthyStr bucketName = true) (hF : truthyStr filePath = true) :
    Effect.computePublicUrl bucketName filePath ∈
      checkDownload dl tempDirExists getPub probeEv bucketName filePath ∧
    ∀ u, getPub bucketName filePath = some u → truthyStr u = true →
      Effect.probeUrl u ∈
        checkDownload dl tempDirExists getPub probeEv bucketName filePath := by
  constructor
  · cases dl <;> simp [checkDownload, hB, hF]
  · intro u hu htu
    cases dl <;> simp [checkDownload, hB, hF, hu, htu]

/-- Witness for C6: a failed (not-found) download still fetches and
probes the public URL. -/
theorem checkDownload_probe_runs_regardless_witness :
    Effect.computePublicUrl "b" "missing.txt" ∈
      checkDownload (DownloadResult.apiError "Object not found") false
        (fun _ _ => some "http://u") (NetEvent.response 404) "b" "missing.txt" ∧
    Effect.probeUrl "http://u" ∈
      checkDownload (DownloadResult.apiError "Object not found") false
        (fun _ _ => some "http://u") (NetEvent.response 404) "b" "missing.txt" :=
  ⟨(checkDownload_probe_runs_regardless (DownloadResult.apiError "Object not found")
      false (fun _ _ => some "http://u") (NetEvent.response 404) "b" "missing.txt"
      (by decide) (by decide)).1,
    (checkDownload_probe_runs_regardless (DownloadResult.apiError "Object not found")
      false (fun _ _ => some "http://u") (NetEvent.response 404) "b" "missing.txt"
      (by decide) (by decide)).2 "http://u" rfl (by decide)⟩

/-- C8: for every generated-file upload that reaches the upload attempt,
the local test file is unlinked afterwards whatever the upload outcome
(success, API error, or exception caught inside the upload processor),
and a failing unlink is reported as a warning while a successful one is
reported as info - the handler always completes its trace. -/
theorem handleGeneratedFileUpload_always_unlinks (tempDirExists : Bool)
    (now : String) (outcome : UploadOutcome)
    (getPub : String → String → Option String) (probeEv : NetEvent)
    (unlinkErr : Option String) (fileType bucketName storagePathInput : String)
    (testFile : TestFile)
    (hB : truthyStr bucketName = true)
    (htf : (prepareTestFile tempDirExists now fileType).2 = some testFile) :
    Effect.unlinkAttempt testFile.filePath ∈
      handleGeneratedFileUpload tempDirExists now outcome getPub probeEv
        unlinkErr fileType bucketName storagePathInput ∧
    (∀ m, unlinkErr = some m →
      Effect.warn ("Failed to cleanup local test file: " ++ m) ∈
        handleGeneratedFileUpload tempDirExists now outcome getPub probeEv
          unlinkErr fileType bucketName storagePathInput) ∧
    (unlinkErr = none →
      Effect.info ("Cleaned up local test file: " ++ testFile.filePath) ∈
        handleGeneratedFileUpload tempDirExists now outcome getPub probeEv
          unlinkErr fileType bucketName storagePathInput) := by
  refine ⟨?_, ?_, ?_⟩
  · simp [handleGeneratedFileUpload, hB, htf]
  · intro m hm
    simp [handleGeneratedFileUpload, hB, htf, hm]
  · intro hn
    simp [handleGeneratedFileUpload, hB, htf, hn]

/-- Witness for C8: a generated text upload whose upload processor threw
and whose unlink also fails still attempts the unlink and warns. -/
theorem handleGeneratedFileUpload_always_unlinks_witness :
    truthyStr "b" = true ∧
    (prepareTestFile true "T" "text").2 = some
      { filePath := "supabase-debug-temp/debug-text.txt",
        contentType := "text/plain",
        fileSize := ("Supabase Storage Debug Tool: Test file generated at T").utf8ByteSize } ∧
    Effect.unlinkAttempt "supabase-debug-temp/debug-text.txt" ∈
      handleGeneratedFileUpload true "T" (UploadOutcome.thrown "boom")
        (fun _ _ => none) NetEvent.netError (some "EPERM") "text" "b" "" ∧
    Effect.warn "Failed to cleanup local test file: EPERM" ∈
      handleGeneratedFileUpload true "T" (UploadOutcome.thrown "boom")
        (fun _ _ => none) NetEvent.netError (some "EPERM") "text" "b" "" :=
  ⟨by decide, rfl,
    (handleGeneratedFileUpload_always_unlinks true "T" (UploadOutcome.thrown "boom")
      (fun _ _ => none) NetEvent.netError (some "EPERM") "text" "b" ""
      { filePath := "supabase-debug-temp/debug-text.txt",
        contentType := "text/plain",
        fileSize := ("Supabase Storage Debug Tool: Test file generated at T").utf8ByteSize }
      (by decide) rfl).1,
    (handleGeneratedFileUpload_always_unlinks true "T" (UploadOutcome.thrown "boom")
      (fun _ _ => none) NetEvent.netError (some "EPERM") "text" "b" ""
      { filePath := "supabase-debug-temp/debug-text.txt",
        contentType := "text/plain",
        fileSize := ("Supabase Storage Debug Tool: Test file generated at T").utf8ByteSize }
      (by decide) rfl).2.1 "EPERM" rfl⟩

/-- C9 is violated by the code: the download handler writes its
inspection copy under the temp directory without creating that directory
first, so with the directory absent a successful download performs no
local write and instead reports a critical download exception; with the
directory present the write happens; by contrast the generated-payload
preparation does create the directory before writing. -/
theorem checkDownload_write_fails_when_tempdir_missing :
    hasWriteEffect
        (checkDownload (DownloadResult.ok 57 "text/plain") false
          (fun _ _ => none) NetEvent.netError "b" "f.txt") = false ∧
    Effect.errorLog ("Critical download exception: " ++
        enoentMsg (TEMP_DIR_PATH ++ "/download_" ++ "f.txt")) ∈
      checkDownload (DownloadResult.ok 57 "text/plain") false
        (fun _ _ => none) NetEvent.netError "b" "f.txt" ∧
    hasWriteEffect
        (checkDownload (DownloadResult.ok 57 "text/plain") true
          (fun _ _ => none) NetEvent.netError "b" "f.txt") = true ∧
    Effect.mkdirTemp ∈ (prepareTestFile false "T" "text").1 := by
  refine ⟨by decide, by decide, by decide, by decide⟩

/-- C10: an error object with a null/undefined `message` is classified
without throwing, yielding the generic fallback hint that echoes
"Unknown Supabase error". -/
theorem getErrorHint_missing_message_fallback :
    getErrorHint none = "Consult Supabase docs for: \x22Unknown Supabase error\x22" ∧
    strIncludes (getErrorHint none) "Unknown Supabase error" = true := by
  constructor
  · rfl
  · decide

end SupabaseDebug
